import Mathlib

/-!
Verification of the growth simulator in `src/investment.py`
(`calculate_investment_growth`, lines 6-124, together with the validation guard
in front of it).

Real arithmetic is modelled exactly over `ℚ`.  Python's `round(x, 2)` is
modelled by `round2` below; `round2` rounds an exact half-cent up, while CPython
rounds the nearest representable binary double half-to-even — no statement in
this file depends on the behaviour at an exact `.005` tie, and every concrete
input used below was checked to round identically under both conventions.

The `int | float` dynamic typing of the three monetary/rate arguments matters
only for the validation guard (IEEE special values); it is modelled by
`PyFloat`.  The two duration arguments are natural numbers, as in the original
UI, which only produces non-negative integers for them.
-/

/-- Python `round(x, 2)`: round to two decimal places. -/
def round2 (x : ℚ) : ℚ := ((round (100 * x) : ℤ) : ℚ) / 100

theorem round2_mono {x y : ℚ} (h : x ≤ y) : round2 x ≤ round2 y := by
  unfold round2
  have h1 : round (100 * x) ≤ round (100 * y) := by
    rw [round_eq, round_eq]
    exact Int.floor_le_floor (by linarith)
  exact (div_le_div_iff_of_pos_right (by norm_num : (0:ℚ) < 100)).mpr (by exact_mod_cast h1)

theorem round2_zero : round2 0 = 0 := by
  unfold round2
  norm_num

theorem round2_nonneg {x : ℚ} (hx : 0 ≤ x) : 0 ≤ round2 x := by
  have := round2_mono hx
  rwa [round2_zero] at this

theorem sub_lt_round2 (x : ℚ) : x - 1 / 200 < round2 x := by
  unfold round2
  rw [round_eq]
  rw [lt_div_iff₀ (by norm_num : (0:ℚ) < 100)]
  have h := Int.sub_one_lt_floor ((100:ℚ) * x + 1 / 2)
  linarith

theorem round2_round2 (x : ℚ) : round2 (round2 x) = round2 x := by
  unfold round2
  rw [mul_comm, div_mul_cancel₀ _ (by norm_num : (100:ℚ) ≠ 0), round_intCast]

theorem neg_le_round2 {x : ℚ} (h : -(1/100) < x) : -(1/100) ≤ round2 x := by
  unfold round2
  rw [round_eq]
  have h1 : (-1 : ℤ) ≤ ⌊(100:ℚ) * x + 1/2⌋ := Int.le_floor.mpr (by push_cast; linarith)
  rw [le_div_iff₀ (by norm_num : (0:ℚ) < 100)]
  have h2 : ((-1 : ℤ) : ℚ) ≤ (⌊(100:ℚ) * x + 1/2⌋ : ℚ) := by exact_mod_cast h1
  push_cast at h2 ⊢
  linarith

theorem round2_intMul (k : ℤ) : round2 ((k : ℚ) / 100) = (k : ℚ) / 100 := by
  unfold round2
  rw [mul_comm, div_mul_cancel₀ _ (by norm_num : (100:ℚ) ≠ 0), round_intCast]

/-- One record of `results['growth_over_time']` (source lines 117-122). -/
structure TrajEntry where
  year : ℕ
  one_time_value : ℚ
  sip_value : ℚ
  total_value : ℚ
deriving Repr, DecidableEq, Inhabited

/-- The `results` dictionary returned by `calculate_investment_growth`
(source lines 43-52 and the fields filled in on lines 54-122). -/
structure Results where
  initial_one_time_investment : ℚ
  monthly_sip_amount : ℚ
  annual_interest_rate_percent : ℚ
  sip_duration_years : ℕ
  total_investment_duration_years : ℕ
  final_value_one_time_investment : ℚ
  total_contributed_sip : ℚ
  value_of_sip_at_sip_end : ℚ
  final_value_monthly_sip : ℚ
  total_contributed : ℚ
  final_value : ℚ
  total_earnings : ℚ
  growth_over_time : List TrajEntry
deriving Repr, DecidableEq

/-- `monthly_interest_rate` (source line 40). -/
def monthly_interest_rate (annual_interest_rate_percent : ℚ) : ℚ :=
  annual_interest_rate_percent / 100 / 12

/-- `annual_interest_rate` (source line 41). -/
def annual_interest_rate (annual_interest_rate_percent : ℚ) : ℚ :=
  annual_interest_rate_percent / 100

/-- Future value of the monthly annuity exactly as the source computes it, both
in the summary part (lines 65-68) and per year in the plotting loop (lines
101-104): guarded on a positive monthly rate to avoid dividing by zero. -/
def annuityFV (monthly_sip_amount m : ℚ) (numMonths : ℕ) : ℚ :=
  if 0 < m then monthly_sip_amount * (((1 + m) ^ numMonths - 1) / m)
  else monthly_sip_amount * numMonths

/-- `final_value_one_time` (source line 56), before rounding. -/
def final_value_one_time (one_time rate_pct : ℚ) (totalY : ℕ) : ℚ :=
  one_time * (1 + annual_interest_rate rate_pct) ^ totalY

/-- `results['total_contributed_sip']` (lines 70 and 80). -/
def total_contributed_sip (monthly : ℚ) (sipY : ℕ) : ℚ :=
  if 0 < monthly then monthly * ((sipY * 12 : ℕ) : ℚ) else 0

/-- `results['value_of_sip_at_sip_end']` (lines 72 and 81): the annuity value at
the end of the SIP period rounded to cents, or 0 when there is no monthly SIP. -/
def value_of_sip_at_sip_end (monthly rate_pct : ℚ) (sipY : ℕ) : ℚ :=
  if 0 < monthly then
    round2 (annuityFV monthly (monthly_interest_rate rate_pct) (sipY * 12))
  else 0

/-- `results['final_value_monthly_sip']` (lines 77-78 and 82): the unrounded
end-of-SIP annuity value compounded annually over the remaining years, then
rounded. -/
def final_value_monthly_sip (monthly rate_pct : ℚ) (sipY totalY : ℕ) : ℚ :=
  if 0 < monthly then
    round2 (annuityFV monthly (monthly_interest_rate rate_pct) (sipY * 12) *
      (1 + annual_interest_rate rate_pct) ^ (totalY - sipY))
  else 0

/-- `results['total_contributed']` (lines 58 and 71). -/
def total_contributed (one_time monthly : ℚ) (sipY : ℕ) : ℚ :=
  one_time + total_contributed_sip monthly sipY

/-- `results['final_value']` (line 85): unrounded one-time value plus the
already-rounded SIP value, rounded. -/
def final_value (one_time monthly rate_pct : ℚ) (sipY totalY : ℕ) : ℚ :=
  round2 (final_value_one_time one_time rate_pct totalY +
    final_value_monthly_sip monthly rate_pct sipY totalY)

/-- `current_sip_value` at a given year of the plotting loop (lines 98-114).
For years past the SIP period the loop compounds the already-rounded
`value_of_sip_at_sip_end` (line 112). -/
def current_sip_value (monthly rate_pct : ℚ) (sipY year : ℕ) : ℚ :=
  if year ≤ sipY then
    annuityFV monthly (monthly_interest_rate rate_pct) (year * 12)
  else if 0 < sipY ∧ 0 < value_of_sip_at_sip_end monthly rate_pct sipY then
    value_of_sip_at_sip_end monthly rate_pct sipY *
      (1 + annual_interest_rate rate_pct) ^ (year - sipY)
  else 0

/-- One appended record of the plotting loop (source lines 93-122); `year` runs
from 1 to the total duration. -/
def growthEntry (one_time monthly rate_pct : ℚ) (sipY : ℕ) (year : ℕ) : TrajEntry :=
  { year := year
    one_time_value := round2 (final_value_one_time one_time rate_pct year)
    sip_value := round2 (current_sip_value monthly rate_pct sipY year)
    total_value := round2 (final_value_one_time one_time rate_pct year +
      current_sip_value monthly rate_pct sipY year) }

/-- The result record built by `calculate_investment_growth` once validation has
passed (source lines 39-122). -/
def growthResults (one_time monthly rate_pct : ℚ) (sipY totalY : ℕ) : Results :=
  { initial_one_time_investment := one_time
    monthly_sip_amount := monthly
    annual_interest_rate_percent := rate_pct
    sip_duration_years := sipY
    total_investment_duration_years := totalY
    final_value_one_time_investment := round2 (final_value_one_time one_time rate_pct totalY)
    total_contributed_sip := total_contributed_sip monthly sipY
    value_of_sip_at_sip_end := value_of_sip_at_sip_end monthly rate_pct sipY
    final_value_monthly_sip := final_value_monthly_sip monthly rate_pct sipY totalY
    total_contributed := total_contributed one_time monthly sipY
    final_value := final_value one_time monthly rate_pct sipY totalY
    total_earnings := round2 (final_value one_time monthly rate_pct sipY totalY -
      total_contributed one_time monthly sipY)
    growth_over_time :=
      (List.range totalY).map fun i => growthEntry one_time monthly rate_pct sipY (i + 1) }

/-- The validation guard (source lines 28-37) restricted to finite numeric
inputs: on rationals `isinstance` always holds and no value is NaN or infinite;
the two durations, being naturals, pass their own checks automatically. -/
def validInput (one_time monthly rate_pct : ℚ) (sipY totalY : ℕ) : Prop :=
  0 ≤ one_time ∧ 0 ≤ monthly ∧ 0 ≤ rate_pct ∧ sipY ≤ totalY

instance validInput.instDecidable (a b c : ℚ) (S T : ℕ) :
    Decidable (validInput a b c S T) := by
  unfold validInput
  infer_instance

/-- `calculate_investment_growth` (source lines 6-124); `none` models the
`return None` taken on either validation failure (lines 33 and 37). -/
def calculate_investment_growth (one_time monthly rate_pct : ℚ) (sipY totalY : ℕ) :
    Option Results :=
  if validInput one_time monthly rate_pct sipY totalY then
    some (growthResults one_time monthly rate_pct sipY totalY)
  else none

/-- A Python `int | float` argument as the validation guard sees it: a finite
value (idealised as an exact rational) or one of the IEEE special values. -/
inductive PyFloat where
  | fin (q : ℚ)
  | posInf
  | negInf
  | nan
deriving Repr, DecidableEq

/-- Python `arg >= 0` on a number (IEEE comparison: the infinities compare
normally, every comparison involving NaN is false). -/
def PyFloat.ge_zero : PyFloat → Prop
  | .fin q => 0 ≤ q
  | .posInf => True
  | .negInf => False
  | .nan => False

def PyFloat.isFinite : PyFloat → Prop
  | .fin _ => True
  | _ => False

def PyFloat.isNeg : PyFloat → Prop
  | .fin q => q < 0
  | .negInf => True
  | _ => False

def PyFloat.isNan : PyFloat → Prop
  | .nan => True
  | _ => False

/-- The guard of source lines 28-37 over raw Python arguments: holds exactly
when `calculate_investment_growth` returns `None` (an `InvalidInput` failure).
The duration arguments are naturals (always finite and non-negative, so their
own checks pass). -/
def validationRejects (one_time monthly rate_pct : PyFloat) (sipY totalY : ℕ) : Prop :=
  ¬(one_time.ge_zero ∧ monthly.ge_zero ∧ rate_pct.ge_zero) ∨ totalY < sipY

theorem calculate_eq_some {a b c : ℚ} {S T : ℕ} {res : Results}
    (h : calculate_investment_growth a b c S T = some res) :
    validInput a b c S T ∧ res = growthResults a b c S T := by
  unfold calculate_investment_growth at h
  split at h
  · exact ⟨by assumption, (Option.some.inj h).symm⟩
  · exact absurd h (by simp)

theorem growth_over_time_length (a b c : ℚ) (S T : ℕ) :
    (growthResults a b c S T).growth_over_time.length = T := by
  simp [growthResults]

theorem growth_over_time_get (a b c : ℚ) (S T i : ℕ)
    (h : i < (growthResults a b c S T).growth_over_time.length) :
    (growthResults a b c S T).growth_over_time.get ⟨i, h⟩ = growthEntry a b c S (i + 1) := by
  simp [growthResults, List.get_eq_getElem, List.getElem_map]

theorem growth_over_time_getD (a b c : ℚ) (S T i : ℕ) (hi : i < T) :
    (growthResults a b c S T).growth_over_time.getD i default = growthEntry a b c S (i + 1) := by
  have hlen : i < (growthResults a b c S T).growth_over_time.length := by
    rwa [growth_over_time_length]
  rw [List.getD_eq_getElem _ _ hlen]
  have := growth_over_time_get a b c S T i hlen
  rw [List.get_eq_getElem] at this
  exact this

theorem mem_growth_over_time {a b c : ℚ} {S T : ℕ} {e : TrajEntry}
    (he : e ∈ (growthResults a b c S T).growth_over_time) :
    ∃ i, i < T ∧ e = growthEntry a b c S (i + 1) := by
  simp only [growthResults, List.mem_map, List.mem_range] at he
  obtain ⟨i, hi, rfl⟩ := he
  exact ⟨i, hi, rfl⟩

theorem annuityFV_nonneg {monthly m : ℚ} (hmon : 0 ≤ monthly) (hm : 0 ≤ m) (n : ℕ) :
    0 ≤ annuityFV monthly m n := by
  unfold annuityFV
  split
  · next h =>
    refine mul_nonneg hmon (div_nonneg ?_ (le_of_lt h))
    have h1 : (1:ℚ) ≤ (1 + m) ^ n := one_le_pow₀ (by linarith)
    linarith
  · exact mul_nonneg hmon (Nat.cast_nonneg n)

theorem annuityFV_mono_months {monthly m : ℚ} (hmon : 0 ≤ monthly) {n₁ n₂ : ℕ}
    (h : n₁ ≤ n₂) : annuityFV monthly m n₁ ≤ annuityFV monthly m n₂ := by
  unfold annuityFV
  split
  · next hm =>
    refine mul_le_mul_of_nonneg_left ?_ hmon
    refine (div_le_div_iff_of_pos_right hm).mpr ?_
    have h1 : (1 + m) ^ n₁ ≤ (1 + m) ^ n₂ := pow_le_pow_right₀ (by linarith) h
    linarith
  · exact mul_le_mul_of_nonneg_left (by exact_mod_cast Nat.cast_le.mpr h) hmon

theorem contributions_le_annuityFV {monthly m : ℚ} (hmon : 0 ≤ monthly) (hm : 0 ≤ m)
    (n : ℕ) : monthly * (n : ℚ) ≤ annuityFV monthly m n := by
  unfold annuityFV
  split
  · next hm' =>
    refine mul_le_mul_of_nonneg_left ?_ hmon
    rw [le_div_iff₀ hm']
    have h1 := one_add_mul_le_pow (by linarith : (-2:ℚ) ≤ m) n
    linarith
  · exact le_refl _

theorem annuityFV_zero_months (monthly m : ℚ) : annuityFV monthly m 0 = 0 := by
  unfold annuityFV
  split <;> simp

theorem annuityFV_zero_monthly (m : ℚ) (n : ℕ) : annuityFV 0 m n = 0 := by
  unfold annuityFV
  split <;> simp

theorem value_of_sip_at_sip_end_nonneg {monthly rate_pct : ℚ} (hmon : 0 ≤ monthly)
    (hr : 0 ≤ rate_pct) (S : ℕ) : 0 ≤ value_of_sip_at_sip_end monthly rate_pct S := by
  unfold value_of_sip_at_sip_end
  split
  · exact round2_nonneg (annuityFV_nonneg hmon (by unfold monthly_interest_rate; positivity) _)
  · exact le_refl _

theorem current_sip_value_nonneg {monthly rate_pct : ℚ} (hmon : 0 ≤ monthly)
    (hr : 0 ≤ rate_pct) (S y : ℕ) : 0 ≤ current_sip_value monthly rate_pct S y := by
  unfold current_sip_value
  split
  · exact annuityFV_nonneg hmon (by unfold monthly_interest_rate; positivity) _
  · split
    · next h =>
      refine mul_nonneg h.2.le (pow_nonneg ?_ _)
      unfold annual_interest_rate
      positivity
    · exact le_refl _

theorem current_sip_value_zero_monthly (rate_pct : ℚ) (S y : ℕ) :
    current_sip_value 0 rate_pct S y = 0 := by
  unfold current_sip_value value_of_sip_at_sip_end
  simp [annuityFV_zero_monthly]

theorem one_le_one_add_rate_pow {rate_pct : ℚ} (hr : 0 ≤ rate_pct) (n : ℕ) :
    1 ≤ (1 + annual_interest_rate rate_pct) ^ n := by
  refine one_le_pow₀ ?_
  unfold annual_interest_rate
  have : 0 ≤ rate_pct / 100 := by positivity
  linarith

theorem final_value_one_time_nonneg {one_time rate_pct : ℚ} (h1 : 0 ≤ one_time)
    (hr : 0 ≤ rate_pct) (T : ℕ) : 0 ≤ final_value_one_time one_time rate_pct T := by
  unfold final_value_one_time
  refine mul_nonneg h1 (pow_nonneg ?_ _)
  unfold annual_interest_rate
  positivity

theorem final_value_one_time_mono {one_time rate_pct : ℚ} (h1 : 0 ≤ one_time)
    (hr : 0 ≤ rate_pct) {n₁ n₂ : ℕ} (h : n₁ ≤ n₂) :
    final_value_one_time one_time rate_pct n₁ ≤ final_value_one_time one_time rate_pct n₂ := by
  unfold final_value_one_time
  refine mul_le_mul_of_nonneg_left (pow_le_pow_right₀ ?_ h) h1
  unfold annual_interest_rate
  have : 0 ≤ rate_pct / 100 := by positivity
  linarith

theorem monthly_interest_rate_nonneg {c : ℚ} (hc : 0 ≤ c) :
    0 ≤ monthly_interest_rate c := by
  unfold monthly_interest_rate
  positivity

/-- C2, as stated: refuted.  `+∞` is not a finite number, yet Python evaluates
`float('inf') >= 0` as true, so the guard accepts it and the function proceeds
to return a result instead of failing with `InvalidInput`. -/
theorem c2_counterexample :
    ¬ PyFloat.posInf.isFinite ∧
    ¬ validationRejects PyFloat.posInf (PyFloat.fin 0) (PyFloat.fin 10) 0 20 := by
  constructor
  · simp [PyFloat.isFinite]
  · simp [validationRejects, PyFloat.ge_zero]

/-- C2 amended: `calculate_investment_growth` fails (returns `None`) if and only
if one of the three monetary/rate scalars is negative (including `-∞`) or is
NaN, or `totalYears < contributionYears`; a `+∞` scalar is accepted.  The first
conjunct characterises the guard over raw Python values, the second ties the
guard to the simulation on finite inputs. -/
theorem c2_amended :
    (∀ (a b c : PyFloat) (S T : ℕ),
      validationRejects a b c S T ↔
        (a.isNeg ∨ b.isNeg ∨ c.isNeg ∨ a.isNan ∨ b.isNan ∨ c.isNan ∨ T < S)) ∧
    (∀ (qa qb qc : ℚ) (S T : ℕ),
      calculate_investment_growth qa qb qc S T = none ↔
        validationRejects (.fin qa) (.fin qb) (.fin qc) S T) := by
  constructor
  · intro a b c S T
    have key : ∀ x : PyFloat, ¬ x.ge_zero ↔ (x.isNeg ∨ x.isNan) := by
      intro x
      cases x <;> simp [PyFloat.ge_zero, PyFloat.isNeg, PyFloat.isNan, not_le]
    have hsplit : ¬(a.ge_zero ∧ b.ge_zero ∧ c.ge_zero) ↔
        (¬a.ge_zero ∨ ¬b.ge_zero ∨ ¬c.ge_zero) := by tauto
    rw [validationRejects, hsplit, key a, key b, key c]
    tauto
  · intro qa qb qc S T
    unfold calculate_investment_growth
    split
    · next hv =>
      simp only [reduceCtorEq, false_iff]
      obtain ⟨h1, h2, h3, h4⟩ := hv
      simp [validationRejects, PyFloat.ge_zero, h1, h2, h3, not_lt.mpr h4]
    · next hv =>
      simp only [true_iff]
      unfold validInput at hv
      simp only [validationRejects, PyFloat.ge_zero]
      by_cases hq : 0 ≤ qa ∧ 0 ≤ qb ∧ 0 ≤ qc
      · refine Or.inr ?_
        have hST : ¬ S ≤ T := fun hle => hv ⟨hq.1, hq.2.1, hq.2.2, hle⟩
        omega
      · exact Or.inl hq

/-- C5: for every valid input the trajectory has exactly `totalYears` entries
and the `year` field of the i-th entry (0-based) is `i + 1`, so the years are
the consecutive integers 1, …, `totalYears` in ascending order. -/
theorem c5_trajectory_length_and_years (a b c : ℚ) (S T : ℕ) (res : Results)
    (h : calculate_investment_growth a b c S T = some res) :
    res.growth_over_time.length = T ∧
    ∀ (i : ℕ) (hi : i < res.growth_over_time.length),
      (res.growth_over_time.get ⟨i, hi⟩).year = i + 1 := by
  obtain ⟨-, rfl⟩ := calculate_eq_some h
  refine ⟨growth_over_time_length a b c S T, ?_⟩
  intro i hi
  rw [growth_over_time_get]
  rfl

theorem c5_witness :
    (growthResults 100 5 10 2 5).growth_over_time.length = 5 ∧
    ∀ (i : ℕ) (hi : i < (growthResults 100 5 10 2 5).growth_over_time.length),
      ((growthResults 100 5 10 2 5).growth_over_time.get ⟨i, hi⟩).year = i + 1 :=
  c5_trajectory_length_and_years 100 5 10 2 5 _
    (by norm_num [calculate_investment_growth, validInput])

/-- C6: for every valid input with `monthlyContribution = 0`, all SIP-leg
figures are zero: `totalContributedSip`, `valueOfSipAtContributionEnd`,
`finalValueSip`, and every trajectory entry's `sipValue`. -/
theorem c6_zero_monthly_zeroes_sip_leg (a b c : ℚ) (S T : ℕ) (res : Results)
    (h : calculate_investment_growth a b c S T = some res) (hb : b = 0) :
    res.total_contributed_sip = 0 ∧ res.value_of_sip_at_sip_end = 0 ∧
    res.final_value_monthly_sip = 0 ∧ ∀ e ∈ res.growth_over_time, e.sip_value = 0 := by
  subst hb
  obtain ⟨-, rfl⟩ := calculate_eq_some h
  refine ⟨by simp [growthResults, total_contributed_sip],
    by simp [growthResults, value_of_sip_at_sip_end],
    by simp [growthResults, final_value_monthly_sip], ?_⟩
  intro e he
  obtain ⟨i, hi, rfl⟩ := mem_growth_over_time he
  simp [growthEntry, current_sip_value_zero_monthly, round2_zero]

theorem c6_witness :
    (growthResults 100 0 10 2 5).total_contributed_sip = 0 ∧
    (growthResults 100 0 10 2 5).value_of_sip_at_sip_end = 0 ∧
    (growthResults 100 0 10 2 5).final_value_monthly_sip = 0 ∧
    ∀ e ∈ (growthResults 100 0 10 2 5).growth_over_time, e.sip_value = 0 :=
  c6_zero_monthly_zeroes_sip_leg 100 0 10 2 5 _
    (by norm_num [calculate_investment_growth, validInput]) rfl

/-- C7, as stated: refuted.  With `lumpSum = 0.004`, zero rate and no SIP the
code returns `finalValue = round(0.004, 2) = 0`, which differs from the lump
sum, because the final value is rounded to whole cents while the lump sum input
need not be one. -/
theorem c7_counterexample :
    ∃ res, calculate_investment_growth (1/250) 0 0 0 1 = some res ∧
      res.final_value ≠ 1/250 := by
  refine ⟨growthResults (1/250) 0 0 0 1,
    by norm_num [calculate_investment_growth, validInput], ?_⟩
  norm_num [growthResults, final_value, final_value_one_time, final_value_monthly_sip,
    annual_interest_rate, round2, round_eq]

/-- C7 amended: with `annualRatePercent = 0` and `monthlyContribution = 0` the
result's `finalValue` equals the lump sum rounded to two decimals; in
particular it equals the lump sum itself whenever the lump sum is a whole
number of cents. -/
theorem c7_amended (a b c : ℚ) (S T : ℕ) (res : Results)
    (h : calculate_investment_growth a b c S T = some res) (hb : b = 0) (hc : c = 0) :
    res.final_value = round2 a ∧ ∀ k : ℤ, a = (k : ℚ) / 100 → res.final_value = a := by
  subst hb hc
  obtain ⟨-, rfl⟩ := calculate_eq_some h
  have hfv : (growthResults a 0 0 S T).final_value = round2 a := by
    simp [growthResults, final_value, final_value_one_time, final_value_monthly_sip,
      annual_interest_rate]
  refine ⟨hfv, ?_⟩
  intro k hk
  rw [hfv, hk, round2_intMul]

theorem c7_witness :
    ((growthResults (3/2) 0 0 0 4).final_value = round2 (3/2) ∧
      ∀ k : ℤ, (3/2 : ℚ) = (k : ℚ) / 100 → (growthResults (3/2) 0 0 0 4).final_value = 3/2) :=
  c7_amended (3/2) 0 0 0 4 _
    (by norm_num [calculate_investment_growth, validInput]) rfl rfl

/-- C8: the concrete scenario `lumpSum = 100000`, no SIP, 10% rate over 20
years: the simulation succeeds, `finalValue` is `round(100000 * 1.1^20, 2) =
672749.99` and `totalContributed` is `100000`. -/
theorem c8_concrete_scenario :
    ∃ res, calculate_investment_growth 100000 0 10 0 20 = some res ∧
      res.final_value = round2 (100000 * (11/10 : ℚ)^20) ∧
      res.final_value = 67274999/100 ∧
      res.total_contributed = 100000 := by
  refine ⟨growthResults 100000 0 10 0 20,
    by norm_num [calculate_investment_growth, validInput], ?_, ?_, ?_⟩
  · norm_num [growthResults, final_value, final_value_one_time, final_value_monthly_sip,
      annual_interest_rate, round2, round_eq]
  · norm_num [growthResults, final_value, final_value_one_time, final_value_monthly_sip,
      annual_interest_rate, round2, round_eq]
  · norm_num [growthResults, total_contributed, total_contributed_sip]

/-- C9: with `contributionYears = 0` the SIP leg is entirely zero even when
`monthlyContribution > 0` (the annuity over 0 months is 0, and the trajectory
takes its post-SIP branch with a zero guard), and `finalValue` equals
`finalValueLumpSum`. -/
theorem c9_zero_contribution_years (a b c : ℚ) (S T : ℕ) (res : Results)
    (h : calculate_investment_growth a b c S T = some res) (hS : S = 0) :
    res.total_contributed_sip = 0 ∧ res.value_of_sip_at_sip_end = 0 ∧
    res.final_value_monthly_sip = 0 ∧ (∀ e ∈ res.growth_over_time, e.sip_value = 0) ∧
    res.final_value = res.final_value_one_time_investment := by
  subst hS
  obtain ⟨-, rfl⟩ := calculate_eq_some h
  have h2 : value_of_sip_at_sip_end b c 0 = 0 := by
    unfold value_of_sip_at_sip_end
    split <;> simp [annuityFV_zero_months, round2_zero]
  have h3 : final_value_monthly_sip b c 0 T = 0 := by
    unfold final_value_monthly_sip
    split <;> simp [annuityFV_zero_months, round2_zero]
  refine ⟨by simp [growthResults, total_contributed_sip], by simp [growthResults, h2],
    by simp [growthResults, h3], ?_, ?_⟩
  · intro e he
    obtain ⟨i, hi, rfl⟩ := mem_growth_over_time he
    simp [growthEntry, current_sip_value, round2_zero]
  · simp [growthResults, final_value, h3]

theorem c9_witness :
    (growthResults 100 5 10 0 5).total_contributed_sip = 0 ∧
    (growthResults 100 5 10 0 5).value_of_sip_at_sip_end = 0 ∧
    (growthResults 100 5 10 0 5).final_value_monthly_sip = 0 ∧
    (∀ e ∈ (growthResults 100 5 10 0 5).growth_over_time, e.sip_value = 0) ∧
    (growthResults 100 5 10 0 5).final_value =
      (growthResults 100 5 10 0 5).final_value_one_time_investment :=
  c9_zero_contribution_years 100 5 10 0 5 _
    (by norm_num [calculate_investment_growth, validInput]) rfl

/-- C10: with a positive monthly contribution and `1 ≤ contributionYears ≤
totalYears`, the trajectory entry for `year = contributionYears` stores as its
`sipValue` exactly the result's `valueOfSipAtContributionEnd` (both round the
same annuity over `contributionYears * 12` months). -/
theorem c10_trajectory_matches_sip_end (a b c : ℚ) (S T : ℕ) (res : Results)
    (h : calculate_investment_growth a b c S T = some res) (hb : 0 < b) (hS : 1 ≤ S) :
    (res.growth_over_time.getD (S - 1) default).sip_value = res.value_of_sip_at_sip_end := by
  obtain ⟨⟨-, -, -, hST⟩, rfl⟩ := calculate_eq_some h
  rw [show (growthResults a b c S T).growth_over_time = (growthResults a b c S T).growth_over_time from rfl]
  rw [growth_over_time_getD a b c S T _ (by omega)]
  rw [show S - 1 + 1 = S from by omega]
  show round2 (current_sip_value b c S S) = _
  rw [current_sip_value, if_pos (le_refl S)]
  simp [growthResults, value_of_sip_at_sip_end, hb]

theorem c10_witness :
    ((growthResults 0 5000 10 10 10).growth_over_time.getD (10 - 1) default).sip_value =
      (growthResults 0 5000 10 10 10).value_of_sip_at_sip_end :=
  c10_trajectory_matches_sip_end 0 5000 10 10 10 _
    (by norm_num [calculate_investment_growth, validInput]) (by norm_num) (by norm_num)

/-- C4, as stated: refuted in its `totalEarnings` part.  With lumpSum
0.004, monthly contribution 1/3000 (so 0.004 contributed over one year), zero
rate, one year: both final-value roundings drop below the exact contributions
and `totalEarnings = round(0 - 0.008, 2) = -0.01 < 0`. -/
theorem c4_counterexample :
    ∃ res, calculate_investment_growth (1/250) (1/3000) 0 1 1 = some res ∧
      res.total_earnings < 0 := by
  refine ⟨growthResults (1/250) (1/3000) 0 1 1,
    by norm_num [calculate_investment_growth, validInput], ?_⟩
  norm_num [growthResults, final_value, final_value_one_time, final_value_monthly_sip,
    total_contributed, total_contributed_sip, annuityFV, monthly_interest_rate,
    annual_interest_rate, round2, round_eq]

/-- C4 amended: for every valid input all the listed monetary fields are
non-negative except `totalEarnings`, which rounding can push below zero by at
most one cent: `totalEarnings ≥ -0.01`. -/
theorem c4_amended (a b c : ℚ) (S T : ℕ) (res : Results)
    (h : calculate_investment_growth a b c S T = some res) :
    0 ≤ res.final_value_one_time_investment ∧
    0 ≤ res.total_contributed_sip ∧
    0 ≤ res.value_of_sip_at_sip_end ∧
    0 ≤ res.final_value_monthly_sip ∧
    0 ≤ res.total_contributed ∧
    0 ≤ res.final_value ∧
    -(1/100) ≤ res.total_earnings ∧
    ∀ e ∈ res.growth_over_time,
      0 ≤ e.one_time_value ∧ 0 ≤ e.sip_value ∧ 0 ≤ e.total_value := by
  obtain ⟨⟨ha, hb, hc, hST⟩, rfl⟩ := calculate_eq_some h
  have hm : 0 ≤ monthly_interest_rate c := monthly_interest_rate_nonneg hc
  have hfvot : 0 ≤ final_value_one_time a c T := final_value_one_time_nonneg ha hc T
  have hcsip : 0 ≤ total_contributed_sip b S := by
    unfold total_contributed_sip
    split
    · exact mul_nonneg hb (Nat.cast_nonneg _)
    · exact le_refl _
  have hvend := value_of_sip_at_sip_end_nonneg hb hc S
  have hfvms : 0 ≤ final_value_monthly_sip b c S T := by
    unfold final_value_monthly_sip
    split
    · refine round2_nonneg (mul_nonneg (annuityFV_nonneg hb hm _) (pow_nonneg ?_ _))
      unfold annual_interest_rate
      positivity
    · exact le_refl _
  have hfv : 0 ≤ final_value a b c S T := round2_nonneg (add_nonneg hfvot hfvms)
  have hearn : -(1/100) ≤ round2 (final_value a b c S T - total_contributed a b S) := by
    refine neg_le_round2 ?_
    have h5 : final_value_one_time a c T + final_value_monthly_sip b c S T - 1/200
        < final_value a b c S T := sub_lt_round2 _
    have h4 : a ≤ final_value_one_time a c T := by
      unfold final_value_one_time
      exact le_mul_of_one_le_right ha (one_le_one_add_rate_pow hc T)
    rcases lt_or_le 0 b with hbpos | hbz
    · have hA := annuityFV_nonneg hb hm (S * 12)
      have h1 : b * ((S * 12 : ℕ) : ℚ) ≤ annuityFV b (monthly_interest_rate c) (S * 12) :=
        contributions_le_annuityFV hb hm _
      have h2 : annuityFV b (monthly_interest_rate c) (S * 12)
          ≤ annuityFV b (monthly_interest_rate c) (S * 12) *
            (1 + annual_interest_rate c) ^ (T - S) :=
        le_mul_of_one_le_right hA (one_le_one_add_rate_pow hc _)
      have h3 : annuityFV b (monthly_interest_rate c) (S * 12) *
          (1 + annual_interest_rate c) ^ (T - S) - 1/200
            < final_value_monthly_sip b c S T := by
        rw [final_value_monthly_sip, if_pos hbpos]
        exact sub_lt_round2 _
      have hc2 : total_contributed a b S = a + b * ((S * 12 : ℕ) : ℚ) := by
        rw [total_contributed, total_contributed_sip, if_pos hbpos]
      rw [hc2]
      linarith
    · have hb0 : b = 0 := le_antisymm hbz hb
      subst hb0
      have hms : final_value_monthly_sip 0 c S T = 0 := by
        rw [final_value_monthly_sip, if_neg (lt_irrefl 0)]
      have hc2 : total_contributed a 0 S = a := by
        rw [total_contributed, total_contributed_sip, if_neg (lt_irrefl 0), add_zero]
      rw [hc2]
      rw [hms] at h5
      linarith
  refine ⟨round2_nonneg hfvot, hcsip, hvend, hfvms, add_nonneg ha hcsip, hfv, hearn, ?_⟩
  intro e he
  obtain ⟨i, hi, rfl⟩ := mem_growth_over_time he
  have hcsv := current_sip_value_nonneg hb hc S (i + 1)
  have hfl := final_value_one_time_nonneg ha hc (i + 1)
  exact ⟨round2_nonneg hfl, round2_nonneg hcsv, round2_nonneg (add_nonneg hfl hcsv)⟩

theorem c4_witness :
    0 ≤ (growthResults 100 5 10 2 7).final_value_one_time_investment ∧
    0 ≤ (growthResults 100 5 10 2 7).total_contributed_sip ∧
    0 ≤ (growthResults 100 5 10 2 7).value_of_sip_at_sip_end ∧
    0 ≤ (growthResults 100 5 10 2 7).final_value_monthly_sip ∧
    0 ≤ (growthResults 100 5 10 2 7).total_contributed ∧
    0 ≤ (growthResults 100 5 10 2 7).final_value ∧
    -(1/100) ≤ (growthResults 100 5 10 2 7).total_earnings ∧
    ∀ e ∈ (growthResults 100 5 10 2 7).growth_over_time,
      0 ≤ e.one_time_value ∧ 0 ≤ e.sip_value ∧ 0 ≤ e.total_value :=
  c4_amended 100 5 10 2 7 _ (by norm_num [calculate_investment_growth, validInput])

/-- C1, as stated: refuted.  With lumpSum 0, monthly 1, rate 120%, one SIP year
and three total years, the last trajectory entry's totalValue is 103.48 while
the result's finalValue is 103.50: the trajectory compounds the rounded
end-of-SIP value 21.38 (line 112) while the summary compounds the unrounded
annuity value 21.38428… (line 77), and two remaining years at 120% amplify the
gap past a cent. -/
theorem c1_counterexample :
    ∃ res, calculate_investment_growth 0 1 120 1 3 = some res ∧
      res.growth_over_time.length = 3 ∧
      (res.growth_over_time.getD 2 default).total_value = 10348/100 ∧
      res.final_value = 10350/100 ∧
      (res.growth_over_time.getD 2 default).total_value ≠ res.final_value := by
  have e0 : ((growthResults 0 1 120 1 3).growth_over_time.getD 2 default).total_value
      = 10348/100 := by
    norm_num [growthResults, growthEntry, final_value_one_time, current_sip_value,
      value_of_sip_at_sip_end, annuityFV, monthly_interest_rate, annual_interest_rate,
      round2, round_eq, List.range_succ, List.getD]
  have e1 : (growthResults 0 1 120 1 3).final_value = 10350/100 := by
    norm_num [growthResults, final_value, final_value_one_time, final_value_monthly_sip,
      annuityFV, monthly_interest_rate, annual_interest_rate, round2, round_eq]
  refine ⟨growthResults 0 1 120 1 3, by norm_num [calculate_investment_growth, validInput],
    growth_over_time_length 0 1 120 1 3, e0, e1, ?_⟩
  rw [e0, e1]
  norm_num

/-- C1 amended: when the SIP leg is absent (`monthlyContribution = 0` or
`contributionYears = 0`) the last trajectory entry's totalValue equals
`finalValue`; with an active SIP leg the two can differ, because `finalValue`
compounds the unrounded end-of-contribution annuity value while the trajectory
compounds its rounded form. -/
theorem c1_amended (a b c : ℚ) (S T : ℕ) (res : Results)
    (h : calculate_investment_growth a b c S T = some res) (hT : 1 ≤ T)
    (hleg : b = 0 ∨ S = 0) :
    (res.growth_over_time.getD (T - 1) default).total_value = res.final_value := by
  obtain ⟨-, rfl⟩ := calculate_eq_some h
  rw [growth_over_time_getD a b c S T _ (by omega), show T - 1 + 1 = T from by omega]
  have hcsv : current_sip_value b c S T = 0 := by
    rcases hleg with hb | hS
    · subst hb
      exact current_sip_value_zero_monthly c S T
    · subst hS
      rw [current_sip_value, if_neg (by omega), if_neg (by simp)]
  have hfvms : final_value_monthly_sip b c S T = 0 := by
    rcases hleg with hb | hS
    · subst hb
      rw [final_value_monthly_sip, if_neg (lt_irrefl 0)]
    · subst hS
      rw [final_value_monthly_sip]
      split
      · rw [annuityFV_zero_months, zero_mul, round2_zero]
      · rfl
  show round2 (final_value_one_time a c T + current_sip_value b c S T)
      = final_value a b c S T
  rw [hcsv, final_value, hfvms]

theorem c1_witness :
    ((growthResults 100000 0 10 0 20).growth_over_time.getD (20 - 1) default).total_value =
      (growthResults 100000 0 10 0 20).final_value :=
  c1_amended 100000 0 10 0 20 _ (by norm_num [calculate_investment_growth, validInput])
    (by norm_num) (Or.inl rfl)

theorem round2_current_sip_value_step {b c : ℚ} (hb : 0 ≤ b) (hc : 0 ≤ c)
    (S : ℕ) {y : ℕ} (hy : 1 ≤ y) :
    round2 (current_sip_value b c S y) ≤ round2 (current_sip_value b c S (y + 1)) := by
  have hvend := value_of_sip_at_sip_end_nonneg hb hc S
  have hr1 : (1 : ℚ) ≤ 1 + annual_interest_rate c := by
    have h0 : 0 ≤ annual_interest_rate c := by
      unfold annual_interest_rate
      positivity
    linarith
  unfold current_sip_value
  rcases le_or_lt (y + 1) S with h1 | h1
  · rw [if_pos (show y ≤ S by omega), if_pos h1]
    exact round2_mono (annuityFV_mono_months hb (by omega))
  · rw [if_neg (show ¬ (y + 1 ≤ S) by omega)]
    rcases le_or_lt y S with h2 | h2
    · -- transition year: y = S
      have hSy : S = y := by omega
      subst hSy
      rw [if_pos (le_refl S)]
      by_cases hcond : 0 < S ∧ 0 < value_of_sip_at_sip_end b c S
      · rw [if_pos hcond]
        rcases lt_or_le 0 b with hbpos | hbz
        · have hv : value_of_sip_at_sip_end b c S =
              round2 (annuityFV b (monthly_interest_rate c) (S * 12)) := by
            unfold value_of_sip_at_sip_end
            rw [if_pos hbpos]
          calc round2 (annuityFV b (monthly_interest_rate c) (S * 12))
              = round2 (round2 (annuityFV b (monthly_interest_rate c) (S * 12))) :=
                (round2_round2 _).symm
            _ = round2 (value_of_sip_at_sip_end b c S) := by rw [hv]
            _ ≤ round2 (value_of_sip_at_sip_end b c S *
                  (1 + annual_interest_rate c) ^ (S + 1 - S)) :=
                round2_mono (le_mul_of_one_le_right hvend (one_le_pow₀ hr1))
        · have hb0 : b = 0 := le_antisymm hbz hb
          subst hb0
          have hvz : value_of_sip_at_sip_end 0 c S = 0 := by
            unfold value_of_sip_at_sip_end
            rw [if_neg (lt_irrefl 0)]
          rw [hvz] at hcond
          exact absurd hcond.2 (lt_irrefl 0)
      · rw [if_neg hcond]
        rcases lt_or_le 0 b with hbpos | hbz
        · have hv : value_of_sip_at_sip_end b c S =
              round2 (annuityFV b (monthly_interest_rate c) (S * 12)) := by
            unfold value_of_sip_at_sip_end
            rw [if_pos hbpos]
          have hz : value_of_sip_at_sip_end b c S = 0 := by
            rcases eq_or_lt_of_le hvend with h | h
            · exact h.symm
            · exact absurd ⟨by omega, h⟩ hcond
          rw [← hv, hz, round2_zero]
        · have hb0 : b = 0 := le_antisymm hbz hb
          subst hb0
          rw [annuityFV_zero_monthly]
    · -- both years past the SIP period
      rw [if_neg (show ¬ (y ≤ S) by omega)]
      by_cases hcond : 0 < S ∧ 0 < value_of_sip_at_sip_end b c S
      · rw [if_pos hcond, if_pos hcond]
        exact round2_mono (mul_le_mul_of_nonneg_left
          (pow_le_pow_right₀ hr1 (by omega)) hvend)
      · rw [if_neg hcond, if_neg hcond]

theorem growthEntry_total_value_step {a b c : ℚ} (S : ℕ) (hleg : a = 0 ∨ b = 0)
    (ha : 0 ≤ a) (hb : 0 ≤ b) (hc : 0 ≤ c) {y : ℕ} (hy : 1 ≤ y) :
    (growthEntry a b c S y).total_value ≤ (growthEntry a b c S (y + 1)).total_value := by
  show round2 (final_value_one_time a c y + current_sip_value b c S y)
      ≤ round2 (final_value_one_time a c (y + 1) + current_sip_value b c S (y + 1))
  rcases hleg with h0 | h0
  · subst h0
    have hz : ∀ n, final_value_one_time 0 c n = 0 := by
      intro n
      unfold final_value_one_time
      rw [zero_mul]
    rw [hz, hz, zero_add, zero_add]
    exact round2_current_sip_value_step hb hc S hy
  · subst h0
    rw [current_sip_value_zero_monthly, current_sip_value_zero_monthly, add_zero, add_zero]
    exact round2_mono (final_value_one_time_mono ha hc (Nat.le_succ y))

theorem growthEntry_total_value_mono {a b c : ℚ} (S : ℕ) (hleg : a = 0 ∨ b = 0)
    (ha : 0 ≤ a) (hb : 0 ≤ b) (hc : 0 ≤ c) {p q : ℕ} (hp : 1 ≤ p) (hpq : p ≤ q) :
    (growthEntry a b c S p).total_value ≤ (growthEntry a b c S q).total_value := by
  induction q, hpq using Nat.le_induction with
  | base => exact le_refl _
  | succ n hn ih =>
    exact le_trans ih (growthEntry_total_value_step S hleg ha hb hc (le_trans hp hn))

/-- C3, as stated: refuted.  A valid input with positive rate, lump sum and
monthly contribution on which the stored trajectory totals strictly DECREASE
from year 1 (0.13) to year 2 (0.12): the handoff at the end of the contribution
period replaces the unrounded annuity value 0.034 by its rounded form 0.03, and
at the small rate 1.2% the loss is not recovered, so the rounded totals drop by
a cent.  In particular they are not strictly increasing. -/
theorem c3_counterexample :
    ∃ res, calculate_investment_growth (911/10120) (34 * 1000 ^ 10 / (1001 ^ 12 - 1000 ^ 12))
        (6/5) 1 2 = some res ∧
      (0 : ℚ) < 6/5 ∧ (0 : ℚ) < 911/10120 ∧
      (0 : ℚ) < 34 * 1000 ^ 10 / (1001 ^ 12 - 1000 ^ 12) ∧
      (res.growth_over_time.getD 0 default).total_value = 13/100 ∧
      (res.growth_over_time.getD 1 default).total_value = 12/100 ∧
      ¬ ((res.growth_over_time.getD 0 default).total_value
          < (res.growth_over_time.getD 1 default).total_value) := by
  have e0 : ((growthResults (911/10120) (34 * 1000 ^ 10 / (1001 ^ 12 - 1000 ^ 12))
        (6/5) 1 2).growth_over_time.getD 0 default).total_value = 13/100 := by
    norm_num [growthResults, growthEntry, final_value_one_time, current_sip_value,
      value_of_sip_at_sip_end, annuityFV, monthly_interest_rate, annual_interest_rate,
      round2, round_eq, List.range_succ, List.getD]
  have e1 : ((growthResults (911/10120) (34 * 1000 ^ 10 / (1001 ^ 12 - 1000 ^ 12))
        (6/5) 1 2).growth_over_time.getD 1 default).total_value = 12/100 := by
    norm_num [growthResults, growthEntry, final_value_one_time, current_sip_value,
      value_of_sip_at_sip_end, annuityFV, monthly_interest_rate, annual_interest_rate,
      round2, round_eq, List.range_succ, List.getD]
  refine ⟨growthResults (911/10120) (34 * 1000 ^ 10 / (1001 ^ 12 - 1000 ^ 12)) (6/5) 1 2,
    by norm_num [calculate_investment_growth, validInput], by norm_num, by norm_num,
    by norm_num, e0, e1, ?_⟩
  rw [e0, e1]
  norm_num

/-- C3 amended: under a positive rate and a portfolio with a single active leg
(`lumpSum = 0` or `monthlyContribution = 0`), the stored trajectory totals are
non-decreasing in year.  Strict increase fails in general because consecutive
rounded totals can tie, and with both legs positive the totals can even drop by
a cent at the contribution-end handoff (see the counterexample). -/
theorem c3_amended (a b c : ℚ) (S T : ℕ) (res : Results)
    (h : calculate_investment_growth a b c S T = some res)
    (hc : 0 < c) (hpos : 0 < a ∨ 0 < b) (hleg : a = 0 ∨ b = 0)
    (i j : ℕ) (hij : i ≤ j) (hj : j < T) :
    (res.growth_over_time.getD i default).total_value
      ≤ (res.growth_over_time.getD j default).total_value := by
  obtain ⟨⟨ha, hb, -, -⟩, rfl⟩ := calculate_eq_some h
  rw [growth_over_time_getD a b c S T i (by omega), growth_over_time_getD a b c S T j hj]
  exact growthEntry_total_value_mono S hleg ha hb hc.le (by omega) (by omega)

theorem c3_witness :
    ((growthResults 0 1 10 1 3).growth_over_time.getD 0 default).total_value
      ≤ ((growthResults 0 1 10 1 3).growth_over_time.getD 2 default).total_value :=
  c3_amended 0 1 10 1 3 _ (by norm_num [calculate_investment_growth, validInput])
    (by norm_num) (Or.inr (by norm_num)) (Or.inl rfl) 0 2 (by norm_num) (by norm_num)
